import Mathlib

/-
Verification of the Taiga MCP server (BaamStudios/taiga-mcp-server).

The repository is an adapter exposing the Taiga REST API as MCP tools.  Each
tool handler resolves human-friendly identifiers (numeric ID strings, project
slugs, "#"-prefixed user-story reference numbers) to numeric IDs, obtains an
authenticated HTTP client from a token cache, performs one main HTTP request
and renders the JSON answer as text.

The embedding below models the remote Taiga API as an explicit world state, an
HTTP request trace, and a JS-exception monad.  Service functions and tool
handlers are translated one-to-one from the JavaScript source files
(src/tools/*.js, src/services/*.js).  Several source files hold more than one
document behind a separator marker; in particular userStoryServices.js is the
second document of the roleServices.js source file and is embedded from there.
One file, taigaAuth.js, is imported by every service but is not part of the
sources available here; its two functions are modelled from the specification
and marked as such in their doc comments.
-/

/-! ## JavaScript numeric-string parsing

The handlers branch on isNaN(projectIdentifier) (some spell it
isNaN(Number(projectIdentifier)); both coerce the string with Number()).
jsParsesAsNumber implements "Number(s) is not NaN": after trimming JS
whitespace, the empty string coerces to 0; otherwise the string must be a
decimal literal with optional sign, fraction and exponent, an Infinity
literal (sign allowed), or an unsigned hex/octal/binary literal. -/

def isJsSpace (c : Char) : Bool :=
  c = ' ' || c = '\t' || c = '\n' || c = '\r' || c = '\x0b' || c = '\x0c' ||
  c = '\u00A0' || c = '\uFEFF' ||
  c = '\u1680' || (decide (0x2000 ≤ c.toNat) && decide (c.toNat ≤ 0x200A)) ||
  c = '\u2028' || c = '\u2029' || c = '\u202F' || c = '\u205F' || c = '\u3000'

def isHexDigitChar (c : Char) : Bool :=
  c.isDigit || (decide ('a' ≤ c) && decide (c ≤ 'f')) ||
    (decide ('A' ≤ c) && decide (c ≤ 'F'))

/-- Optional exponent part: either nothing, or e/E, an optional sign and at
least one digit. -/
def expTailOk (l : List Char) : Bool :=
  match l with
  | [] => true
  | c :: r =>
      (c = 'e' || c = 'E') &&
      (let r2 := match r with
                 | s :: t => if s = '+' || s = '-' then t else s :: t
                 | [] => []
       !r2.isEmpty && r2.all Char.isDigit)

/-- Consume a decimal mantissa (digits, optionally with one decimal point;
digits are required on at least one side of the point); return the rest of
the characters, or none if no valid mantissa starts the list. -/
def decMantissa (l : List Char) : Option (List Char) :=
  let ds := l.takeWhile Char.isDigit
  let rest := l.dropWhile Char.isDigit
  if ds.isEmpty then
    match rest with
    | '.' :: r2 =>
        if (r2.takeWhile Char.isDigit).isEmpty then none
        else some (r2.dropWhile Char.isDigit)
    | _ => none
  else
    match rest with
    | '.' :: r2 => some (r2.dropWhile Char.isDigit)
    | _ => some rest

def decNumberOk (l : List Char) : Bool :=
  match decMantissa l with
  | some rest => expTailOk rest
  | none => false

/-- An unsigned numeric literal: Infinity, 0x/0o/0b radix literals, or a
decimal literal. -/
def unsignedNumberOk (l : List Char) : Bool :=
  if l = "Infinity".data then true
  else
    match l with
    | '0' :: x :: r =>
        if x = 'x' || x = 'X' then !r.isEmpty && r.all isHexDigitChar
        else if x = 'o' || x = 'O' then
          !r.isEmpty && r.all (fun c => decide ('0' ≤ c) && decide (c ≤ '7'))
        else if x = 'b' || x = 'B' then
          !r.isEmpty && r.all (fun c => c = '0' || c = '1')
        else decNumberOk l
    | _ => decNumberOk l

/-- The characters of s with JS whitespace removed from both ends. -/
def jsNumericTrim (s : String) : List Char :=
  ((s.data.dropWhile isJsSpace).reverse.dropWhile isJsSpace).reverse

/-- Number(s) produces a non-NaN value.  A sign is only permitted before a
decimal literal or Infinity (Number("+0x10") is NaN). -/
def jsParsesAsNumber (s : String) : Bool :=
  match jsNumericTrim s with
  | [] => true
  | c :: r =>
      if c = '+' || c = '-' then r = "Infinity".data || decNumberOk r
      else unsignedNumberOk (c :: r)

/-- Math.round, which is floor(x + 1/2) for every real argument. -/
def jsRound (q : ℚ) : ℤ := Int.floor (q + 1/2)

/-- Display helper for a JS number in a text template.  The claims only ever
inspect integral values, which JS prints without a decimal point. -/
def jsNumStr (q : ℚ) : String :=
  if q.den = 1 then toString q.num else toString q

/-! ## The remote Taiga world -/

structure Project where
  id : Nat
  slug : String
  name : String
  deriving Repr, DecidableEq

structure UserStory where
  id : Nat
  ref : Nat
  subject : String
  description : Option String
  project : Nat
  status : Option Nat
  tags : List String
  deriving Repr, DecidableEq

/-- A user-story or task status entry belonging to a project. -/
structure StatusEntry where
  id : Nat
  name : String
  project : Nat
  isClosed : Bool
  deriving Repr, DecidableEq

structure Milestone where
  id : Nat
  name : String
  project : Nat
  closed : Bool
  totalPoints : Option ℚ
  closedPoints : Option ℚ
  deriving Repr, DecidableEq

structure MilestoneStats where
  totalPoints : Option ℚ
  completedPoints : Option ℚ
  totalUserstories : Option Nat
  completedUserstories : Option Nat
  totalTasks : Option Nat
  completedTasks : Option Nat
  deriving Repr, DecidableEq

structure ProjectMember where
  project : Nat
  fullNameDisplay : String
  username : String
  roleName : String
  deriving Repr, DecidableEq

structure TaigaUser where
  id : Nat
  username : String
  fullName : String
  deriving Repr, DecidableEq

/-- A credential pair the remote authentication endpoint accepts, together
with the bearer token it returns. -/
structure Account where
  username : String
  password : String
  authToken : String
  deriving Repr, DecidableEq

/-- The remote Taiga instance plus the process-wide session state (cached
token, configured credentials).  nextId and nextRef provide the ids the
remote assigns to newly created user stories. -/
structure World where
  token : Option String
  accounts : List Account
  me : Option TaigaUser
  envUsername : Option String
  envPassword : Option String
  projects : List Project
  userStories : List UserStory
  usStatuses : List StatusEntry
  taskStatuses : List StatusEntry
  milestones : List Milestone
  milestoneStats : List (Nat × MilestoneStats)
  memberships : List ProjectMember
  nextId : Nat
  nextRef : Nat
  deriving Repr, DecidableEq

/-- A JavaScript value that is either a string or a number: after identifier
resolution, projectId / userStoryId hold the original string in the numeric
branch and the number project.id / userStory.id in the lookup branch. -/
inductive JsVal where
  | str (s : String)
  | num (n : Nat)
  deriving Repr, DecidableEq

def charsToNat (l : List Char) : Nat :=
  l.foldl (fun n c => n * 10 + (c.toNat - '0'.toNat)) 0

/-- The decimal value of a digit string, if it is one. -/
def listToNat? (l : List Char) : Option Nat :=
  if !l.isEmpty && l.all Char.isDigit then some (charsToNat l) else none

/-- How the remote matches an id rendered into a URL or query parameter
against a stored numeric id: a number matches directly, a string must parse
as that integer. -/
def JsVal.matchesId : JsVal → Nat → Bool
  | .num n, i => n == i
  | .str s, i => listToNat? s.data == some i

/-- Payload of POST /userstories, field for field from the handler. -/
structure UserStoryData where
  project : JsVal
  subject : String
  description : Option String
  status : Option Nat
  tags : Option (List String)
  deriving Repr, DecidableEq

/-- Payload of POST /tasks, field for field from the handler. -/
structure TaskData where
  project : JsVal
  user_story : JsVal
  subject : String
  description : Option String
  status : Option Nat
  tags : Option (List String)
  deriving Repr, DecidableEq

/-- Payload of PATCH /userstories/:id, field for field from the handler
(assigned_to and total_points are carried but their remote effect is not
needed by any claim). -/
structure UserStoryPatch where
  subject : Option String
  description : Option String
  assigned_to : Option Nat
  total_points : Option ℚ
  tags : Option (List String)
  status : Option Nat
  deriving Repr, DecidableEq

/-- One outbound HTTP request. -/
inductive Req where
  | login (username : String)
  | getUsersMe
  | getProjectReq (pid : JsVal)
  | getProjectBySlugReq (slug : String)
  | deleteProjectReq (pid : JsVal)
  | getMembershipsReq (pid : JsVal)
  | listUserStoriesReq (pid : JsVal)
  | getUserStoryReq (usId : Nat)
  | createUserStoryReq (data : UserStoryData)
  | updateUserStoryReq (usId : Nat) (patch : UserStoryPatch)
  | getUserStoryStatusesReq (pid : JsVal)
  | getTaskStatusesReq (pid : JsVal)
  | createTaskReq (data : TaskData)
  | listMilestonesReq (pid : JsVal)
  | updateMilestoneReq (mid : Nat) (closed : Bool)
  | getMilestoneStatsReq (mid : Nat)
  deriving Repr, DecidableEq

def Req.isCreateStory : Req → Bool
  | .createUserStoryReq _ => true
  | _ => false

structure Eff where
  world : World
  log : List Req
  deriving Repr, DecidableEq

/-- A computation: given the current world and trace, produce the new world
and trace and either a value or a thrown JS error (its message). -/
def M (α : Type) : Type := Eff → Eff × Except String α

def M.pure (a : α) : M α := fun s => (s, Except.ok a)

def M.bind (x : M α) (f : α → M β) : M β := fun s =>
  match x s with
  | (s1, Except.ok a) => f a s1
  | (s1, Except.error e) => (s1, Except.error e)

instance : Monad M where
  pure := M.pure
  bind := M.bind

/-- throw new Error(msg). -/
def M.throwJs (msg : String) : M α := fun s => (s, Except.error msg)

/-- try { x } catch (error) { h error }.  State changes made before the
throw (HTTP requests already issued) persist. -/
def M.tryCatch (x : M α) (h : String → M α) : M α := fun s =>
  match x s with
  | (s1, Except.ok a) => (s1, Except.ok a)
  | (s1, Except.error e) => h e s1

/-- Record one outbound HTTP request. -/
def M.emit (r : Req) : M Unit := fun s =>
  ({ s with log := s.log ++ [r] }, Except.ok ())

def M.getWorld : M World := fun s => (s, Except.ok s.world)

def M.setWorld (w : World) : M Unit := fun s =>
  ({ s with world := w }, Except.ok ())

/-! ## Session/Token Manager (taigaAuth.js) -/

/-- Modelled from the spec: taigaAuth.js is imported (as ../taigaAuth.js) by
every service file but is not among the available sources.  Spec section 4.1:
createAuthenticatedClient hands back a client carrying the cached bearer
token; if no token is cached it performs a login request against the remote
authentication endpoint with the configured credentials, extracts the
returned token and caches it; subsequent calls reuse the cached token without
re-authenticating; a failed login surfaces an authentication error with no
retry. -/
def createAuthenticatedClient : M Unit := fun s =>
  match s.world.token with
  | some _ => (s, Except.ok ())
  | none =>
      let user := s.world.envUsername.getD ""
      let pass := s.world.envPassword.getD ""
      let s1 : Eff := { s with log := s.log ++ [Req.login user] }
      match s.world.accounts.find? (fun a => a.username == user && a.password == pass) with
      | some a =>
          ({ s1 with world := { s1.world with token := some a.authToken } }, Except.ok ())
      | none => (s1, Except.error "Authentication failed")

/-- src/services/projectServices.js, getProjectBySlug:
GET /projects/by_slug?slug=... -/
def ProjectService.getProjectBySlug (slug : String) : M Project :=
  M.tryCatch
    (do
      createAuthenticatedClient
      M.emit (Req.getProjectBySlugReq slug)
      let w ← M.getWorld
      match w.projects.find? (fun p => p.slug == slug) with
      | some p => pure p
      | none => M.throwJs "Request failed with status code 404")
    (fun _ => M.throwJs "Failed to get project details from Taiga")

/-- src/services/projectServices.js, deleteProject: DELETE /projects/:id. -/
def ProjectService.deleteProject (projectId : JsVal) : M Unit :=
  M.tryCatch
    (do
      createAuthenticatedClient
      M.emit (Req.deleteProjectReq projectId)
      let w ← M.getWorld
      if (w.projects.find? (fun p => JsVal.matchesId projectId p.id)).isSome then
        M.setWorld { w with projects := w.projects.filter (fun p => !JsVal.matchesId projectId p.id) }
      else
        M.throwJs "Request failed with status code 404")
    (fun _ => M.throwJs "Failed to delete project from Taiga")

/-- src/services/projectServices.js, getProjectMembers:
GET /memberships?project=... -/
def ProjectService.getProjectMembers (projectId : JsVal) : M (List ProjectMember) :=
  M.tryCatch
    (do
      createAuthenticatedClient
      M.emit (Req.getMembershipsReq projectId)
      let w ← M.getWorld
      pure (w.memberships.filter (fun m => JsVal.matchesId projectId m.project)))
    (fun _ => M.throwJs "Failed to get project members from Taiga")

/-- The user story stored by the remote for a POST /userstories payload: the
next free id and reference number, and the payload fields. -/
def mkCreatedStory (w : World) (data : UserStoryData) (projectId : Nat) : UserStory :=
  { id := w.nextId
    ref := w.nextRef
    subject := data.subject
    description := data.description
    project := projectId
    status := data.status
    tags := data.tags.getD [] }

/-- src/services/userStoryServices.js (second document of the roleServices.js
source file, lines 81-90), createUserStory: POST /userstories with the payload.
The remote rejects a payload whose project does not resolve to an existing
project, otherwise it stores a new story under a fresh id and returns it. -/
def UserStoryService.createUserStory (data : UserStoryData) : M UserStory :=
  M.tryCatch
    (do
      createAuthenticatedClient
      M.emit (Req.createUserStoryReq data)
      let w ← M.getWorld
      match w.projects.find? (fun p => JsVal.matchesId data.project p.id) with
      | some p =>
          let created := mkCreatedStory w data p.id
          M.setWorld { w with
            userStories := w.userStories ++ [created]
            nextId := w.nextId + 1
            nextRef := w.nextRef + 1 }
          pure created
      | none => M.throwJs "Request failed with status code 400")
    (fun _ => M.throwJs "Failed to create user story in Taiga")

/-- src/services/userStoryServices.js (second document of the roleServices.js
source file, lines 118-127), getUserStory: GET /userstories/:id. -/
def UserStoryService.getUserStory (userStoryId : Nat) : M UserStory :=
  M.tryCatch
    (do
      createAuthenticatedClient
      M.emit (Req.getUserStoryReq userStoryId)
      let w ← M.getWorld
      match w.userStories.find? (fun us => us.id == userStoryId) with
      | some us => pure us
      | none => M.throwJs "Request failed with status code 404")
    (fun _ => M.throwJs "Failed to get user story from Taiga")

/-- src/services/userStoryServices.js (second document of the roleServices.js
source file, lines 97-111), getUserStoryStatuses:
GET /userstory-statuses?project=... -/
def UserStoryService.getUserStoryStatuses (projectId : JsVal) : M (List StatusEntry) :=
  M.tryCatch
    (do
      createAuthenticatedClient
      M.emit (Req.getUserStoryStatusesReq projectId)
      let w ← M.getWorld
      pure (w.usStatuses.filter (fun st => JsVal.matchesId projectId st.project)))
    (fun _ => M.throwJs "Failed to get user story statuses from Taiga")

/-- src/services/milestoneServices.js, updateMilestone:
PATCH /milestones/:id.  The only patch issued by an embedded handler is the
closed flag of taiga_closeMilestone / taiga_reopenMilestone. -/
def MilestoneService.updateMilestone (milestoneId : Nat) (closed : Bool) : M Milestone :=
  M.tryCatch
    (do
      createAuthenticatedClient
      M.emit (Req.updateMilestoneReq milestoneId closed)
      let w ← M.getWorld
      match w.milestones.find? (fun m => m.id == milestoneId) with
      | some m =>
          let updated := { m with closed := closed }
          M.setWorld { w with
            milestones := w.milestones.map (fun v => if v.id == milestoneId then updated else v) }
          pure updated
      | none => M.throwJs "Request failed with status code 404")
    (fun _ => M.throwJs "Failed to update milestone in Taiga")

/-- src/services/milestoneServices.js, getMilestoneStats:
GET /milestones/:id/stats. -/
def MilestoneService.getMilestoneStats (milestoneId : Nat) : M MilestoneStats :=
  M.tryCatch
    (do
      createAuthenticatedClient
      M.emit (Req.getMilestoneStatsReq milestoneId)
      let w ← M.getWorld
      match w.milestoneStats.find? (fun e => e.fst == milestoneId) with
      | some e => pure e.snd
      | none => M.throwJs "Request failed with status code 404")
    (fun _ => M.throwJs "Failed to get milestone statistics from Taiga")

/-! ## Tool handlers (src/tools).  Every handler wraps its whole body in
try/catch; the catch either returns a success-shaped reply whose text starts
with a fixed failure phrase, or rethrows a wrapped error with a fixed
failure phrase, exactly as in each source file. -/

/-- JS String.prototype.toLowerCase, character by character. -/
def jsToLower (s : String) : String :=
  String.mk (s.data.map Char.toLower)

/-- The outcome an MCP tool invocation produces: a returned success-shaped
text response, or an error thrown out of the handler to the hosting
runtime. -/
inductive ToolOutcome where
  | reply (text : String)
  | thrown (msg : String)
  deriving Repr, DecidableEq

/-- JS truthiness of an optional string argument (undefined and the empty
string are falsy). -/
def jsTruthyStr (o : Option String) : Bool :=
  match o with
  | some s => s != ""
  | none => false

/-- The identifier-resolution pattern inlined at the top of every handler
that takes a project identifier: if isNaN(projectIdentifier) is false (the
string coerces to a number) keep the string itself, otherwise call
getProjectBySlug once and take project.id. -/
def resolveProjectId (projectIdentifier : String) : M JsVal :=
  if jsParsesAsNumber projectIdentifier then
    M.pure (JsVal.str projectIdentifier)
  else do
    let project ← ProjectService.getProjectBySlug projectIdentifier
    pure (JsVal.num project.id)

/-- Text of a successful taiga_createUserStory reply, restricted to the
modelled response fields (the template's status/project decoration lines
come from response fields no claim reads). -/
def renderCreatedUserStory (us : UserStory) : String :=
  "User story created successfully!\n\nSubject: " ++ us.subject ++
  "\nReference: #" ++ toString us.ref

def renderUserStoryDetails (us : UserStory) : String :=
  "User Story Details:\n\nID: " ++ toString us.id ++
  "\nReference: #" ++ toString us.ref ++
  "\nSubject: " ++ us.subject ++
  "\nDescription: " ++ (us.description.getD "No description")

def renderMembers (ms : List ProjectMember) : String :=
  "Project Members:\n\n" ++
  String.intercalate "\n"
    (ms.map (fun m => "- " ++ m.fullNameDisplay ++ " (" ++ m.username ++ ") - Role: " ++ m.roleName))

/-- The completion percentage printed by taiga_closeMilestone:
milestone.total_points ? Math.round((milestone.closed_points / milestone.total_points) * 100) : 0.
A missing or zero total_points is falsy and yields 0; a missing
closed_points under a truthy total_points yields NaN (none). -/
def closeCompletion (m : Milestone) : Option ℤ :=
  match m.totalPoints with
  | some t =>
      if t = 0 then some 0
      else
        match m.closedPoints with
        | some c => some (jsRound (c / t * 100))
        | none => none
  | none => some 0

def jsIntStr : Option ℤ → String
  | some z => toString z
  | none => "NaN"

def renderClosedMilestone (m : Milestone) : String :=
  "Milestone closed successfully!\n\n" ++ m.name ++
  "\nStatus: CLOSED\nFinal Stats:\n- Total Points: " ++ jsNumStr (m.totalPoints.getD 0) ++
  "\n- Closed Points: " ++ jsNumStr (m.closedPoints.getD 0) ++
  "\n- Completion: " ++ jsIntStr (closeCompletion m) ++ "%\n"

/-- The percentage printed by taiga_getMilestoneStats:
Math.round(((stats.completed_points || 0) / (stats.total_points || 1)) * 100). -/
def statsCompletion (st : MilestoneStats) : ℤ :=
  let c := st.completedPoints.getD 0
  let t := match st.totalPoints with
           | some q => if q = 0 then 1 else q
           | none => 1
  jsRound (c / t * 100)

def renderMilestoneStats (milestoneId : Nat) (st : MilestoneStats) : String :=
  "Milestone Statistics:\nMilestone ID: " ++ toString milestoneId ++
  "\nTotal Points: " ++ jsNumStr (st.totalPoints.getD 0) ++
  "\nCompleted Points: " ++ jsNumStr (st.completedPoints.getD 0) ++
  "\nTotal User Stories: " ++ toString (st.totalUserstories.getD 0) ++
  "\nCompleted User Stories: " ++ toString (st.completedUserstories.getD 0) ++
  "\nTotal Tasks: " ++ toString (st.totalTasks.getD 0) ++
  "\nCompleted Tasks: " ++ toString (st.completedTasks.getD 0) ++
  "\nProgress: " ++ jsNumStr (st.completedPoints.getD 0) ++ "/" ++
  jsNumStr (st.totalPoints.getD 0) ++ " points (" ++ toString (statsCompletion st) ++ "%)"

/-- src/tools/userStoryTools.js, taiga_createUserStory.  The status name is
resolved case-insensitively against the project's statuses; a miss leaves
statusId undefined.  The catch returns the failure as a success-shaped
reply. -/
def taiga_createUserStory (projectIdentifier subject : String)
    (description status : Option String) (tags : Option (List String)) : M ToolOutcome :=
  M.tryCatch
    (do
      let projectId ← resolveProjectId projectIdentifier
      let statusId ←
        if jsTruthyStr status then do
          let statuses ← UserStoryService.getUserStoryStatuses projectId
          match statuses.find? (fun s => jsToLower s.name == jsToLower (status.getD "")) with
          | some matchingStatus => pure (some matchingStatus.id)
          | none => pure (none : Option Nat)
        else
          pure (none : Option Nat)
      let userStoryData : UserStoryData :=
        { project := projectId, subject := subject, description := description,
          status := statusId, tags := tags }
      let createdStory ← UserStoryService.createUserStory userStoryData
      pure (ToolOutcome.reply (renderCreatedUserStory createdStory)))
    (fun e => M.pure (ToolOutcome.reply ("Failed to create user story: " ++ e)))

/-- src/tools/userStoryTools.js, taiga_getUserStory. -/
def taiga_getUserStory (userStoryId : Nat) : M ToolOutcome :=
  M.tryCatch
    (do
      let userStory ← UserStoryService.getUserStory userStoryId
      pure (ToolOutcome.reply (renderUserStoryDetails userStory)))
    (fun e => M.pure (ToolOutcome.reply ("Failed to get user story: " ++ e)))

/-- src/tools/milestoneTools.js, taiga_closeMilestone: PATCH closed = true,
then print final stats with the completion percentage formula. -/
def taiga_closeMilestone (milestoneId : Nat) : M ToolOutcome :=
  M.tryCatch
    (do
      let milestone ← MilestoneService.updateMilestone milestoneId true
      pure (ToolOutcome.reply (renderClosedMilestone milestone)))
    (fun e => M.pure (ToolOutcome.thrown ("Failed to close milestone: " ++ e)))

/-- src/tools/milestoneTools.js, taiga_getMilestoneStats. -/
def taiga_getMilestoneStats (milestoneId : Nat) : M ToolOutcome :=
  M.tryCatch
    (do
      let stats ← MilestoneService.getMilestoneStats milestoneId
      pure (ToolOutcome.reply (renderMilestoneStats milestoneId stats)))
    (fun e => M.pure (ToolOutcome.thrown ("Failed to get milestone statistics: " ++ e)))

/-- src/tools/projectTools.js, taiga_deleteProject: with confirm = false the
handler returns the cancellation text before any resolution or request. -/
def taiga_deleteProject (projectIdentifier : String) (confirm : Bool) : M ToolOutcome :=
  M.tryCatch
    (do
      if !confirm then
        pure (ToolOutcome.reply "Project deletion cancelled. Please set \x27confirm\x27 to true to proceed with deletion.")
      else do
        let projectId ← resolveProjectId projectIdentifier
        ProjectService.deleteProject projectId
        pure (ToolOutcome.reply ("Project " ++ projectIdentifier ++ " has been permanently deleted.")))
    (fun e => M.pure (ToolOutcome.reply ("Failed to delete project: " ++ e)))

/-- src/tools/authenticationTools.js (one of the unnamed source files),
taiga_getProjectMembers.  The file imports authenticate and
authenticationService but never imports projectService, so both the slug
branch and the later getProjectMembers call evaluate the undefined name
projectService and throw a ReferenceError before any request is issued. -/
def taiga_getProjectMembers (projectIdentifier : String) : M ToolOutcome :=
  M.tryCatch
    (do
      let _projectId ←
        if jsParsesAsNumber projectIdentifier then
          pure (JsVal.str projectIdentifier)
        else
          M.throwJs "projectService is not defined"
      M.throwJs "projectService is not defined")
    (fun e => M.pure (ToolOutcome.reply ("Failed to get project members: " ++ e)))

theorem cac_cached (s : Eff) (tk : String) (h : s.world.token = some tk) :
    createAuthenticatedClient s = (s, Except.ok ()) := by
  unfold createAuthenticatedClient
  rw [h]

theorem run_getProjectMembers (pid : JsVal) (s : Eff) (tk : String)
    (h : s.world.token = some tk) :
    ProjectService.getProjectMembers pid s =
      ({ s with log := s.log ++ [Req.getMembershipsReq pid] },
       Except.ok (s.world.memberships.filter (fun m => JsVal.matchesId pid m.project))) := by
  unfold ProjectService.getProjectMembers M.tryCatch
  simp [Bind.bind, M.bind, cac_cached s tk h, M.emit, M.getWorld, Pure.pure, M.pure]

theorem run_createUserStory_svc (d : UserStoryData) (s : Eff) (tk : String)
    (h : s.world.token = some tk) :
    UserStoryService.createUserStory d s =
      (match s.world.projects.find? (fun p => JsVal.matchesId d.project p.id) with
       | some p =>
          ({ world := { s.world with
                userStories := s.world.userStories ++ [mkCreatedStory s.world d p.id],
                nextId := s.world.nextId + 1,
                nextRef := s.world.nextRef + 1 },
             log := s.log ++ [Req.createUserStoryReq d] },
           Except.ok (mkCreatedStory s.world d p.id))
       | none =>
          ({ s with log := s.log ++ [Req.createUserStoryReq d] },
           Except.error "Failed to create user story in Taiga")) := by
  unfold UserStoryService.createUserStory M.tryCatch
  simp only [Bind.bind, M.bind, cac_cached s tk h, M.emit, M.getWorld, M.pure, M.throwJs]
  cases hf : s.world.projects.find? (fun p => JsVal.matchesId d.project p.id) <;>
    simp [hf, M.setWorld, M.throwJs, Pure.pure, M.pure, M.bind, Bind.bind]

theorem run_getUserStory_svc (usId : Nat) (s : Eff) (tk : String)
    (h : s.world.token = some tk) :
    UserStoryService.getUserStory usId s =
      ({ s with log := s.log ++ [Req.getUserStoryReq usId] },
       match s.world.userStories.find? (fun us => us.id == usId) with
       | some us => Except.ok us
       | none => Except.error "Failed to get user story from Taiga") := by
  unfold UserStoryService.getUserStory M.tryCatch
  simp only [Bind.bind, M.bind, cac_cached s tk h, M.emit, M.getWorld, M.pure, M.throwJs]
  cases hf : s.world.userStories.find? (fun us => us.id == usId) <;>
    simp [hf, M.throwJs, Pure.pure, M.pure]

theorem run_updateMilestone (mid : Nat) (closed : Bool) (s : Eff) (tk : String)
    (h : s.world.token = some tk) :
    MilestoneService.updateMilestone mid closed s =
      (match s.world.milestones.find? (fun m => m.id == mid) with
       | some m =>
          ({ world := { s.world with
                milestones := s.world.milestones.map
                  (fun v => if v.id == mid then { m with closed := closed } else v) },
             log := s.log ++ [Req.updateMilestoneReq mid closed] },
           Except.ok { m with closed := closed })
       | none =>
          ({ s with log := s.log ++ [Req.updateMilestoneReq mid closed] },
           Except.error "Failed to update milestone in Taiga")) := by
  unfold MilestoneService.updateMilestone M.tryCatch
  simp only [Bind.bind, M.bind, cac_cached s tk h, M.emit, M.getWorld, M.pure, M.throwJs]
  cases hf : s.world.milestones.find? (fun m => m.id == mid) <;>
    simp [hf, M.setWorld, M.throwJs, Pure.pure, M.pure, M.bind, Bind.bind]

theorem run_getMilestoneStats (mid : Nat) (s : Eff) (tk : String)
    (h : s.world.token = some tk) :
    MilestoneService.getMilestoneStats mid s =
      ({ s with log := s.log ++ [Req.getMilestoneStatsReq mid] },
       match s.world.milestoneStats.find? (fun e => e.fst == mid) with
       | some e => Except.ok e.snd
       | none => Except.error "Failed to get milestone statistics from Taiga") := by
  unfold MilestoneService.getMilestoneStats M.tryCatch
  simp only [Bind.bind, M.bind, cac_cached s tk h, M.emit, M.getWorld, M.pure, M.throwJs]
  cases hf : s.world.milestoneStats.find? (fun e => e.fst == mid) <;>
    simp [hf, M.throwJs, Pure.pure, M.pure]

/-! ## Concrete worlds used by witnesses and counterexamples -/

def demoAccount : Account :=
  { username := "alice", password := "pw", authToken := "tok-1" }

def demoProject : Project :=
  { id := 1, slug := "demo-project", name := "Demo" }

def demoStory : UserStory :=
  { id := 10, ref := 7, subject := "S", description := none,
    project := 1, status := none, tags := [] }

def demoStatus : StatusEntry :=
  { id := 100, name := "New", project := 1, isClosed := false }

def demoTaskStatus : StatusEntry :=
  { id := 200, name := "Open", project := 1, isClosed := false }

/-- A milestone whose statistics carry completed points but zero total
points, which the remote is free to report. -/
def demoMilestone : Milestone :=
  { id := 5, name := "Sprint 1", project := 1, closed := false,
    totalPoints := some 0, closedPoints := some 0 }

def demoStats : MilestoneStats :=
  { totalPoints := some 0, completedPoints := some 3,
    totalUserstories := none, completedUserstories := none,
    totalTasks := none, completedTasks := none }

def demoWorld : World :=
  { token := some "tok-1"
    accounts := [demoAccount]
    me := some { id := 3, username := "alice", fullName := "Alice A" }
    envUsername := some "alice"
    envPassword := some "pw"
    projects := [demoProject]
    userStories := [demoStory]
    usStatuses := [demoStatus]
    taskStatuses := [demoTaskStatus]
    milestones := [demoMilestone]
    milestoneStats := [(5, demoStats)]
    memberships := []
    nextId := 50
    nextRef := 20 }

/-! ## Trace and outcome invariants

EmitsOnly φ m: every request m appends to the trace satisfies φ.
EmitsOnlyTok φ m: the same under a cached token, which m also preserves.
OkValues φ m: every value m can return satisfies φ.
NeverThrows m: m never ends in a thrown error. -/

def EmitsOnlyTok (φ : Req → Prop) (m : M α) : Prop :=
  ∀ s, (s.world.token).isSome = true → (∀ r ∈ s.log, φ r) →
    ((m s).1.world.token = s.world.token ∧ ∀ r ∈ (m s).1.log, φ r)

def NeverThrows (m : M α) : Prop :=
  ∀ s, ∃ a, (m s).2 = Except.ok a

theorem resolveProjectId_numeric (pid : String) (hpid : jsParsesAsNumber pid = true) :
    resolveProjectId pid = M.pure (JsVal.str pid) := by
  unfold resolveProjectId
  rw [hpid]
  simp

theorem M.bind_of_pure (a : α) (f : α → M β) : M.bind (M.pure a) f = f a := rfl

theorem M.bind_of_pure' (a : α) (f : α → M β) : M.bind (pure a) f = f a := rfl

theorem M.bind_of_throw (msg : String) (f : α → M β) :
    M.bind (M.throwJs msg) f = M.throwJs msg := rfl

/-! ## EmitsOnly lemmas for the services -/

/-- C10: taiga_deleteProject invoked with confirm = false issues no HTTP
request at all, performs no slug resolution, leaves the world unchanged, and
returns the success-shaped cancellation reply. -/
theorem c10_delete_project_cancelled (w : World) (projectIdentifier : String) :
    taiga_deleteProject projectIdentifier false { world := w, log := [] } =
      ({ world := w, log := [] },
       Except.ok (ToolOutcome.reply
         "Project deletion cancelled. Please set \x27confirm\x27 to true to proceed with deletion.")) := rfl

/-- C2 (code bug): the taiga_getProjectMembers handler is specified to
resolve a non-numeric identifier through one slug lookup, but its source
file never imports projectService; evaluated on the slug "intro-project" the
handler throws the ReferenceError, returns it as the failure reply, and
issues no request at all (the trace stays empty). -/
theorem c2_getProjectMembers_missing_import (w : World) :
    taiga_getProjectMembers "intro-project" { world := w, log := [] } =
      ({ world := w, log := [] },
       Except.ok (ToolOutcome.reply
         "Failed to get project members: projectService is not defined")) := rfl

/-- Math.round of an integer value is that integer. -/
theorem jsRound_intCast (z : ℤ) : jsRound (z : ℚ) = z := by
  unfold jsRound
  rw [add_comm, Int.floor_add_int]
  have h0 : ⌊(1/2 : ℚ)⌋ = 0 := by
    rw [Int.floor_eq_iff]
    constructor <;> norm_num
  rw [h0]
  ring

theorem statsCompletion_demoStats : statsCompletion demoStats = 300 := by
  unfold statsCompletion demoStats
  dsimp only
  rw [if_pos rfl, Option.getD_some]
  rw [show ((3:ℚ)) / 1 * 100 = ((300:ℤ) : ℚ) by norm_num]
  exact jsRound_intCast 300

/-- C5 counterexample: in a remote whose statistics for milestone 5 carry
completed_points = 3 and total_points = 0, closing the milestone succeeds
(its closed flag becomes true) and then fetching its statistics reports a
completion percentage of 300, not 0, although total_points is 0 — refuting
"reports 0 when total_points is 0". -/
theorem c5_stats_report_counterexample :
    demoStats.totalPoints = some 0 ∧
    (taiga_closeMilestone 5 { world := demoWorld, log := [] }).1.world.milestones =
      [{ demoMilestone with closed := true }] ∧
    (taiga_getMilestoneStats 5
        (taiga_closeMilestone 5 { world := demoWorld, log := [] }).1).2 =
      Except.ok (ToolOutcome.reply (renderMilestoneStats 5 demoStats)) ∧
    statsCompletion demoStats = 300 ∧ ¬ statsCompletion demoStats = 0 := by
  refine ⟨rfl, rfl, rfl, statsCompletion_demoStats, ?_⟩
  rw [statsCompletion_demoStats]
  decide

/-- C5 (amended): closing a milestone reports completion
round(closed_points / total_points * 100), and 0 when total_points is 0 or
missing; fetching the statistics reports
round((completed_points or 0) / (total_points or 1) * 100), which equals
round(completed_points / total_points * 100) whenever total_points is a
nonzero number, but equals round(completed_points * 100) when total_points
is 0 — 0 only when completed_points is also 0.  Neither tool divides by
zero.  The last two conjuncts show the two handlers reply with exactly
these formulas. -/
theorem c5_completion_formulas (m : Milestone) (st : MilestoneStats) :
    (∀ t c, m.totalPoints = some t → t ≠ 0 → m.closedPoints = some c →
      closeCompletion m = some (jsRound (c / t * 100))) ∧
    (m.totalPoints = some 0 ∨ m.totalPoints = none → closeCompletion m = some 0) ∧
    (∀ t, st.totalPoints = some t → t ≠ 0 →
      statsCompletion st = jsRound ((st.completedPoints.getD 0) / t * 100)) ∧
    (st.totalPoints = some 0 ∨ st.totalPoints = none →
      statsCompletion st = jsRound ((st.completedPoints.getD 0) * 100)) ∧
    (st.totalPoints = some 0 → st.completedPoints = some 0 → statsCompletion st = 0) ∧
    (∀ w tk mid m2, w.token = some tk →
      w.milestones.find? (fun x => x.id == mid) = some m2 →
      (taiga_closeMilestone mid { world := w, log := [] }).2 =
        Except.ok (ToolOutcome.reply (renderClosedMilestone { m2 with closed := true }))) ∧
    (∀ w tk mid e, w.token = some tk →
      w.milestoneStats.find? (fun x => x.fst == mid) = some e →
      (taiga_getMilestoneStats mid { world := w, log := [] }).2 =
        Except.ok (ToolOutcome.reply (renderMilestoneStats mid e.snd))) := by
  refine ⟨?_, ?_, ?_, ?_, ?_, ?_, ?_⟩
  · intro t c ht htz hc
    unfold closeCompletion
    rw [ht, hc]
    dsimp only
    rw [if_neg htz]
  · intro h
    unfold closeCompletion
    rcases h with h | h
    · rw [h]
      dsimp only
      rw [if_pos rfl]
    · rw [h]
  · intro t ht htz
    unfold statsCompletion
    rw [ht]
    dsimp only
    rw [if_neg htz]
  · intro h
    unfold statsCompletion
    rcases h with h | h
    · rw [h]
      dsimp only
      rw [if_pos rfl, div_one]
    · rw [h]
      dsimp only
      rw [div_one]
  · intro ht hc
    unfold statsCompletion
    rw [ht, hc]
    dsimp only
    rw [if_pos rfl, Option.getD_some]
    rw [show ((0:ℚ)) / 1 * 100 = ((0:ℤ) : ℚ) by norm_num]
    exact jsRound_intCast 0
  · intro w tk mid m2 htk hfind
    unfold taiga_closeMilestone M.tryCatch
    simp only [Bind.bind, M.bind]
    rw [run_updateMilestone _ _ _ tk htk]
    simp only [hfind]
    simp [Pure.pure, M.pure]
  · intro w tk mid e htk hfind
    unfold taiga_getMilestoneStats M.tryCatch
    simp only [Bind.bind, M.bind]
    rw [run_getMilestoneStats _ _ tk htk]
    simp only [hfind]
    simp [Pure.pure, M.pure]

/-- C5 witness: the amended statement at concrete inputs — zero statistics
give 0, and the close-milestone tool on the demo world replies with the
rendered final stats. -/
theorem c5_completion_formulas_witness :
    statsCompletion
      { totalPoints := some 0, completedPoints := some 0,
        totalUserstories := none, completedUserstories := none,
        totalTasks := none, completedTasks := none } = 0 ∧
    (taiga_closeMilestone 5 { world := demoWorld, log := [] }).2 =
      Except.ok (ToolOutcome.reply (renderClosedMilestone { demoMilestone with closed := true })) :=
  ⟨(c5_completion_formulas demoMilestone
      { totalPoints := some 0, completedPoints := some 0,
        totalUserstories := none, completedUserstories := none,
        totalTasks := none, completedTasks := none }).2.2.2.2.1 rfl rfl,
   (c5_completion_formulas demoMilestone demoStats).2.2.2.2.2.1
     demoWorld "tok-1" 5 demoMilestone rfl rfl⟩

/-! ## Outcome-shape machinery for the error-reporting policy -/

theorem find_skip_all {α : Type} (p : α → Bool) (l1 l2 : List α)
    (h : ∀ x ∈ l1, p x = false) :
    (l1 ++ l2).find? p = l2.find? p := by
  induction l1 with
  | nil => rfl
  | cons a t ih =>
      have ha := h a (List.mem_cons_self a t)
      simp only [List.cons_append]
      rw [List.find?_cons_of_neg _ (by simp [ha])]
      exact ih (fun x hx => h x (List.mem_cons_of_mem a hx))

/-- Reduction of taiga_createUserStory with no status argument: the handler
resolves the numeric identifier, issues exactly the create request and
replies with the created story. -/
theorem createUserStory_run_noStatus
    (w : World) (tk : String) (hw : w.token = some tk)
    (pid subject : String) (descr : Option String) (tags : Option (List String))
    (hpid : jsParsesAsNumber pid = true)
    (pr : Project)
    (hproj : w.projects.find? (fun p => JsVal.matchesId (JsVal.str pid) p.id) = some pr) :
    taiga_createUserStory pid subject descr none tags { world := w, log := [] } =
      ({ world := { w with
            userStories := w.userStories ++
              [mkCreatedStory w
                { project := JsVal.str pid, subject := subject, description := descr,
                  status := none, tags := tags } pr.id],
            nextId := w.nextId + 1,
            nextRef := w.nextRef + 1 },
         log := [Req.createUserStoryReq
             { project := JsVal.str pid, subject := subject, description := descr,
               status := none, tags := tags }] },
       Except.ok (ToolOutcome.reply (renderCreatedUserStory
         (mkCreatedStory w
           { project := JsVal.str pid, subject := subject, description := descr,
             status := none, tags := tags } pr.id)))) := by
  unfold taiga_createUserStory M.tryCatch
  rw [resolveProjectId_numeric pid hpid]
  simp only [Bind.bind, M.bind, M.pure, Pure.pure, Applicative.toPure, Monad.toApplicative,
    instMonadM, jsTruthyStr, Bool.false_eq_true, if_false]
  rw [run_createUserStory_svc _ _ tk hw]
  simp only [hproj]
  simp [Pure.pure, M.pure, List.nil_append]

/-- C8: invoking the create user-story tool with subject "Test Story" on a
remote where the next free id is not yet taken, and then the get user-story
tool with the id of the story create returned, yields the details of a story
whose subject field equals "Test Story".  The created story is
mkCreatedStory of the posted payload, whose subject projection is the
literal "Test Story". -/
theorem c8_create_then_get_subject
    (w : World) (tk : String) (hw : w.token = some tk)
    (pid : String) (descr : Option String) (tags : Option (List String))
    (hpid : jsParsesAsNumber pid = true)
    (pr : Project)
    (hproj : w.projects.find? (fun p => JsVal.matchesId (JsVal.str pid) p.id) = some pr)
    (hfresh : ∀ x ∈ w.userStories, x.id ≠ w.nextId) :
    (mkCreatedStory w
        { project := JsVal.str pid, subject := "Test Story", description := descr,
          status := none, tags := tags } pr.id).subject = "Test Story" ∧
    (taiga_createUserStory pid "Test Story" descr none tags { world := w, log := [] }).2 =
      Except.ok (ToolOutcome.reply (renderCreatedUserStory
        (mkCreatedStory w
          { project := JsVal.str pid, subject := "Test Story", description := descr,
            status := none, tags := tags } pr.id))) ∧
    (taiga_getUserStory
        (mkCreatedStory w
          { project := JsVal.str pid, subject := "Test Story", description := descr,
            status := none, tags := tags } pr.id).id
        (taiga_createUserStory pid "Test Story" descr none tags { world := w, log := [] }).1).2 =
      Except.ok (ToolOutcome.reply (renderUserStoryDetails
        (mkCreatedStory w
          { project := JsVal.str pid, subject := "Test Story", description := descr,
            status := none, tags := tags } pr.id))) := by
  have hrun := createUserStory_run_noStatus w tk hw pid "Test Story" descr tags hpid pr hproj
  refine ⟨rfl, ?_, ?_⟩
  · rw [hrun]
  · rw [hrun]
    unfold taiga_getUserStory M.tryCatch
    simp only [Bind.bind, M.bind, M.pure]
    rw [run_getUserStory_svc _ _ tk hw]
    have hfind : ((w.userStories ++
        [mkCreatedStory w
          { project := JsVal.str pid, subject := "Test Story", description := descr,
            status := none, tags := tags } pr.id]).find?
        (fun us => us.id ==
          (mkCreatedStory w
            { project := JsVal.str pid, subject := "Test Story", description := descr,
              status := none, tags := tags } pr.id).id)) =
        some (mkCreatedStory w
          { project := JsVal.str pid, subject := "Test Story", description := descr,
            status := none, tags := tags } pr.id) := by
      rw [find_skip_all]
      · rw [List.find?_cons_of_pos]
        simp
      · intro x hx
        have hne := hfresh x hx
        simp only [mkCreatedStory]
        exact beq_eq_false_iff_ne.mpr hne
    simp only [hfind]
    simp [Pure.pure, M.pure]

/-- C8 witness: in the demo world the created story gets id 50; getting
user story 50 after the create returns its details, whose subject is
"Test Story". -/
theorem c8_create_then_get_subject_witness :
    (taiga_getUserStory 50
        (taiga_createUserStory "1" "Test Story" none none none
          { world := demoWorld, log := [] }).1).2 =
      Except.ok (ToolOutcome.reply (renderUserStoryDetails
        (mkCreatedStory demoWorld
          { project := JsVal.str "1", subject := "Test Story", description := none,
            status := none, tags := none } 1))) :=
  (c8_create_then_get_subject demoWorld "tok-1" rfl "1" none none (by decide)
    demoProject (by decide) (by decide)).2.2

/-! ## C4: token caching.  EmitsOnlyTok combinators: under a cached token a
computation preserves the token and only appends φ-requests. -/

/-- Under a cached token, createAuthenticatedClient is the identity: no
request of any kind (in particular no login) and the token untouched. -/
theorem emitsOnlyTok_cac (φ : Req → Prop) :
    EmitsOnlyTok φ createAuthenticatedClient := by
  intro s hs h
  obtain ⟨tk, htk⟩ := Option.isSome_iff_exists.mp hs
  rw [cac_cached s tk htk]
  exact ⟨rfl, h⟩

